import Mathlib

/-!
Shallow embedding of the RetractCheck ingestion pipeline.

The definitions below transcribe, function by function, the ingestion code in
`apps/api/src/ingest.ts` (streaming CSV decoder, row tokenizer, row validator,
health gate, activation pointer update, retention sweeper, fetch retry loop)
and the offline loader `apps/api/scripts/csv-to-sql.ts`.

Modelling conventions:
- Strings are modelled as `List Char`; a JavaScript string index scan becomes
  structural recursion on the character list.
- JavaScript numbers are modelled as `Option ℚ`, with `none` standing for NaN
  (and for the non-finite values, which `Number.isFinite` likewise rejects);
  the decimal-literal subset of `Number(...)` is modelled (optional sign,
  digits, optional fraction), which covers every numeric form the claims and
  the feed's `Record ID` column exercise; hexadecimal and exponent forms are
  not modelled.
- Storage-layer calls (SQL queries, KV get/put) are modelled by explicit
  inputs and outputs: query results are fields of `DbView`, the table set is a
  `List (List Char)` of table names, and the KV active pointer is an
  `Option (List Char)`.  The `try`/`catch` wrappers that only convert a
  storage exception into one more error string are not modelled: queries are
  assumed to answer.
- Real time is an explicit input: the clock reading behind
  `new Date().toISOString()` is a `UtcTime` argument, and the retention
  cutoff comparison `tableDate < cutoffDate` is an explicit predicate
  `old : Timestamp → Bool` applied to the decoded table timestamp.
-/

/-- Characters treated as whitespace by JavaScript `String.prototype.trim`
and by the implicit trimming inside `Number(...)` and `parseInt(...)`
(ASCII subset; the exotic Unicode space characters never occur here). -/
def jsWhitespace (c : Char) : Bool :=
  c == ' ' || c == '\t' || c == '\n' || c == '\r' || c == '\x0b' || c == '\x0c'

/-- JavaScript `String.prototype.trim`: drop leading and trailing whitespace. -/
def jsTrim (s : List Char) : List Char :=
  ((s.dropWhile jsWhitespace).reverse.dropWhile jsWhitespace).reverse

/-- Numeric value of a decimal digit character. -/
def digitVal (c : Char) : ℕ :=
  c.toNat - 48

/-- Value of a string of decimal digit characters, most significant first. -/
def digitsToNat (s : List Char) : ℕ :=
  s.foldl (fun acc c => acc * 10 + digitVal c) 0

/-- Unsigned part of the JavaScript `Number(...)` decimal grammar:
digits, optionally followed by a dot and fraction digits (at least one digit
overall, so `"5."` and `".5"` parse but `"."` does not); anything else is NaN
(`none`). -/
def parseUnsigned (s : List Char) : Option ℚ :=
  let ip := s.takeWhile Char.isDigit
  let rest := s.drop ip.length
  match rest with
  | [] => if ip.isEmpty then none else some (digitsToNat ip)
  | '.' :: frac =>
      if frac.all Char.isDigit && !(ip.isEmpty && frac.isEmpty) then
        some ((digitsToNat ip : ℚ) + (digitsToNat frac : ℚ) / (10 : ℚ) ^ frac.length)
      else none
  | _ => none

/-- JavaScript `Number(string)` on the decimal subset: trim whitespace, map
the empty string to `0`, handle one optional sign, and reject everything the
decimal grammar does not cover (`none` = NaN). -/
def jsNumber (s : List Char) : Option ℚ :=
  match jsTrim s with
  | [] => some 0
  | '+' :: rest => parseUnsigned rest
  | '-' :: rest => (parseUnsigned rest).map Neg.neg
  | c :: rest => parseUnsigned (c :: rest)

/-- JavaScript `Number(x)` where `x` may be `undefined` (a missing object
property): `Number(undefined)` is NaN. -/
def jsNumberAt : Option (List Char) → Option ℚ
  | none => none
  | some v => jsNumber v

/-- JavaScript `parseInt(s, 10)`: trim leading whitespace, one optional sign,
then the longest leading run of digits; NaN (`none`) when that run is empty.
Trailing garbage is ignored. -/
def jsParseInt (s : List Char) : Option ℤ :=
  let t := s.dropWhile jsWhitespace
  match t with
  | '+' :: rest =>
      let d := rest.takeWhile Char.isDigit
      if d.isEmpty then none else some (digitsToNat d)
  | '-' :: rest =>
      let d := rest.takeWhile Char.isDigit
      if d.isEmpty then none else some (-(digitsToNat d : ℤ))
  | _ =>
      let d := t.takeWhile Char.isDigit
      if d.isEmpty then none else some (digitsToNat d)

/-- Decimal rendering of a natural number, as JavaScript string interpolation
produces it. -/
def natDigits (n : ℕ) : List Char :=
  Nat.toDigits 10 n

/-- Recursive worker of `splitCsvLine` (the `for` loop of the source):
`current` is the cell being accumulated, `result` the cells already split
off, `inQ` the in-quotes flag.  A quote toggles quoting (a doubled quote
inside quotes contributes one literal quote and skips the second); a comma
outside quotes ends the cell; every other character is appended. -/
def splitCsvGo : List Char → Bool → List Char → List (List Char) → List (List Char)
  | [], _, current, result => result ++ [current]
  | '"' :: '"' :: rest, true, current, result =>
      splitCsvGo rest true (current ++ ['"']) result
  | '"' :: rest, true, current, result =>
      splitCsvGo rest false current result
  | '"' :: rest, false, current, result =>
      splitCsvGo rest true current result
  | ',' :: rest, true, current, result =>
      splitCsvGo rest true (current ++ [',']) result
  | ',' :: rest, false, current, result =>
      splitCsvGo rest false [] (result ++ [current])
  | c :: rest, inQ, current, result =>
      splitCsvGo rest inQ (current ++ [c]) result

/-- The source's `splitCsvLine`: split one assembled row into cells,
quote-aware, then trim every cell (`result.map((cell) => cell.trim())`). -/
def splitCsvLine (line : List Char) : List (List Char) :=
  (splitCsvGo line false [] []).map jsTrim

/-- Streaming-decoder state carried across chunks in `streamInsertData`:
the row-accumulation buffer `currentRow` and the `inQuotes` flag. -/
structure DecState where
  currentRow : List Char
  inQuotes : Bool
  deriving DecidableEq, Repr

/-- Character scan of the source's `processChunk` loop.  Returns the state
after the chunk together with the list of row strings handed to `processRow`,
in order.  On a quote: doubled quote inside quotes appends both quote
characters and skips the second; otherwise the flag toggles and the quote
character is appended.  On `\n` or `\r` outside quotes: CRLF is consumed as
one terminator, the accumulated row is emitted, the buffer resets.  Any other
character (including `\n`, `\r`, `,` inside quotes) is appended. -/
def scanChunk : List Char → DecState → DecState × List (List Char)
  | [], st => (st, [])
  | '"' :: '"' :: rest, ⟨row, true⟩ =>
      scanChunk rest ⟨row ++ ['"', '"'], true⟩
  | '"' :: rest, ⟨row, true⟩ =>
      scanChunk rest ⟨row ++ ['"'], false⟩
  | '"' :: rest, ⟨row, false⟩ =>
      scanChunk rest ⟨row ++ ['"'], true⟩
  | '\r' :: rest, ⟨row, true⟩ =>
      scanChunk rest ⟨row ++ ['\r'], true⟩
  | '\r' :: '\n' :: rest, ⟨row, false⟩ =>
      let out := scanChunk rest ⟨[], false⟩
      (out.1, row :: out.2)
  | '\r' :: rest, ⟨row, false⟩ =>
      let out := scanChunk rest ⟨[], false⟩
      (out.1, row :: out.2)
  | '\n' :: rest, ⟨row, true⟩ =>
      scanChunk rest ⟨row ++ ['\n'], true⟩
  | '\n' :: rest, ⟨row, false⟩ =>
      let out := scanChunk rest ⟨[], false⟩
      (out.1, row :: out.2)
  | c :: rest, ⟨row, inQ⟩ =>
      scanChunk rest ⟨row ++ [c], inQ⟩

/-- The source's `processChunk(chunk, finalChunk)`: run the character scan;
when `finalChunk` is set and the buffer is non-empty, emit the buffer as the
final row and clear it. -/
def processChunk (st : DecState) (chunk : List Char) (finalChunk : Bool) :
    DecState × List (List Char) :=
  let out := scanChunk chunk st
  if finalChunk && !out.1.currentRow.isEmpty then
    ({ currentRow := [], inQuotes := out.1.inQuotes }, out.2 ++ [out.1.currentRow])
  else
    out

/-- Lookup in the JS object `record` built by `processRow`
(`record[columns[i]] = cells[i] ?? ''`): later assignments override earlier
ones, which the left fold implements; `none` is `undefined`. -/
def jsGet (record : List (List Char × List Char)) (key : List Char) : Option (List Char) :=
  record.foldl (fun acc p => if p.1 = key then some p.2 else acc) none

/-- Record construction of `processRow`: zip column names with cells
positionally, a missing trailing cell becoming the empty string. -/
def buildRecord (columns cells : List (List Char)) : List (List Char × List Char) :=
  (List.range columns.length).map fun i => (columns.getD i [], cells.getD i [])

def recordIdKey : List Char := "Record ID".toList

def originalDoiKey : List Char := "OriginalPaperDOI".toList

def retractionDoiKey : List Char := "RetractionDOI".toList

structure ValidationResult where
  valid : Bool
  reason : Option (List Char)
  deriving DecidableEq, Repr

/-- The source's `validateRow`: the one required field `Record ID` must be
defined and non-blank, and `Number(...)` of it must be finite and positive.
The `rowNumber` argument of the source only bounds warning logs and is
omitted; the missing-DOI branch only logs and leaves the row valid. -/
def validateRow (record : List (List Char × List Char)) : ValidationResult :=
  match jsGet record recordIdKey with
  | none => ⟨false, some ("Missing required field: Record ID".toList)⟩
  | some v =>
      if jsTrim v = [] then ⟨false, some ("Missing required field: Record ID".toList)⟩
      else
        match jsNumber v with
        | none => ⟨false, some ("Invalid Record ID: ".toList ++ v)⟩
        | some recordId =>
            if recordId ≤ 0 then ⟨false, some ("Invalid Record ID: ".toList ++ v)⟩
            else ⟨true, none⟩

/-- Batched record shape pushed by `processRow`.  `raw` is
`JSON.stringify(record)`, modelled as the record itself; `updatedAt` is
`Math.floor(Date.now() / 1000)`. -/
structure StoredRecord where
  recordId : ℚ
  doiOriginal : Option (List Char)
  doiRetraction : Option (List Char)
  raw : List (List Char × List Char)
  updatedAt : ℕ
  deriving DecidableEq

inductive RowStep where
  | ignored
  | skipped (reason : List Char)
  | stored (r : StoredRecord)
  deriving DecidableEq

/-- Data-row path of the source's `processRow` closure (the header has
already been consumed into `columns`).  A blank row returns without touching
any counter; an invalid row is a skip; a valid row is normalized into the
batched record.  `norm` is the external `normaliseDoi` collaborator. -/
def processRow (norm : Option (List Char) → Option (List Char)) (now : ℕ)
    (columns : List (List Char)) (row : List Char) : RowStep :=
  if jsTrim row = [] then .ignored
  else
    let record := buildRecord columns (splitCsvLine row)
    let validation := validateRow record
    if validation.valid then
      .stored {
        recordId := (jsNumberAt (jsGet record recordIdKey)).getD 0,
        doiOriginal := norm (jsGet record originalDoiKey),
        doiRetraction := norm (jsGet record retractionDoiKey),
        raw := record,
        updatedAt := now }
    else
      .skipped (validation.reason.getD [])

structure StreamCounters where
  processedRows : ℕ
  skippedRows : ℕ
  rowNumber : ℕ
  stored : List StoredRecord
  deriving DecidableEq

/-- Effect of one decoded row on the running counters and the accumulated
records: blank rows return early untouched; any other data row advances
`rowNumber`; an invalid row bumps `skippedRows` and stores nothing; a valid
row bumps `processedRows` and appends its record.  Grouping into
`BATCH_SIZE` bulk statements does not change which records are stored and
is not tracked. -/
def ingestRow (norm : Option (List Char) → Option (List Char)) (now : ℕ)
    (columns : List (List Char)) (st : StreamCounters) (row : List Char) : StreamCounters :=
  match processRow norm now columns row with
  | .ignored => st
  | .skipped _ =>
      { st with rowNumber := st.rowNumber + 1, skippedRows := st.skippedRows + 1 }
  | .stored r =>
      { st with
        rowNumber := st.rowNumber + 1
        processedRows := st.processedRows + 1
        stored := st.stored ++ [r] }

/-- Per-record step of `scripts/csv-to-sql.ts` (the `write` callback in
`main`): `Number(rawRecord['Record ID'])`, skip when `!Number.isFinite`,
otherwise emit a SQL tuple whose first value is that number.  Modelled as
the emitted `record_id`, `none` when the row is skipped. -/
def scriptEmit (record : List (List Char × List Char)) : Option ℚ :=
  jsNumberAt (jsGet record recordIdKey)

/-- Acceptance predicate of the offline script: a row is written out exactly
when its `Record ID` parses to a finite number. -/
def scriptAccepts (record : List (List Char × List Char)) : Bool :=
  (scriptEmit record).isSome

def entriesTag : List Char := "entries_".toList

/-- Single digit of a zero-padded decimal rendering. -/
def digitChar (d : ℕ) : Char := Char.ofNat (48 + d % 10)

def pad2 (n : ℕ) : List Char := [digitChar (n / 10), digitChar n]

def pad4 (n : ℕ) : List Char :=
  [digitChar (n / 1000), digitChar (n / 100), digitChar (n / 10), digitChar n]

/-- Clock reading behind `new Date()` in `generateTableName`, split into the
UTC components `toISOString` prints.  Faithfulness domain: a real clock has
`year ≤ 9999` (beyond that `toISOString` switches to the six-digit year
form), `1 ≤ month ≤ 12`, `1 ≤ day ≤ 31`, `hour ≤ 23`, `minute ≤ 59`,
`second ≤ 59`. -/
structure UtcTime where
  year : ℕ
  month : ℕ
  day : ℕ
  hour : ℕ
  minute : ℕ
  second : ℕ

/-- The source's `generateTableName`: `toISOString()` prints
`YYYY-MM-DDTHH:mm:ss.sssZ` with zero-padded components; deleting `-`, `:`
and `T` and keeping the first 14 characters leaves `YYYYMMDDHHmmss`,
appended to the `entries_` tag. -/
def generateTableName (t : UtcTime) : List Char :=
  entriesTag ++ (pad4 t.year ++ pad2 t.month ++ pad2 t.day ++
    pad2 t.hour ++ pad2 t.minute ++ pad2 t.second)

/-- Test of the regex `^entries_\d{14}$` shared by `createTable`,
`createIndexes`, `dropTable`, `parseTableTimestamp` and health check 2. -/
def matchesTablePattern (name : List Char) : Bool :=
  name.take 8 == entriesTag && (name.drop 8).length == 14 && (name.drop 8).all Char.isDigit

/-- Argument tuple the source's `parseTableTimestamp` passes to
`new Date(...)`; `monthIndex` is the parsed month minus one. -/
structure Timestamp where
  year : ℕ
  monthIndex : ℤ
  day : ℕ
  hour : ℕ
  minute : ℕ
  second : ℕ
  deriving DecidableEq

/-- The source's `parseTableTimestamp`: `null` unless the name matches the
snapshot pattern, otherwise the fixed-width slices of the 14 digits. -/
def parseTableTimestamp (name : List Char) : Option Timestamp :=
  if matchesTablePattern name then
    let ts := name.drop 8
    some {
      year := digitsToNat (ts.take 4),
      monthIndex := (digitsToNat ((ts.drop 4).take 2) : ℤ) - 1,
      day := digitsToNat ((ts.drop 6).take 2),
      hour := digitsToNat ((ts.drop 8).take 2),
      minute := digitsToNat ((ts.drop 10).take 2),
      second := digitsToNat ((ts.drop 12).take 2) }
  else none

def invalidNameMsg (name : List Char) : List Char :=
  "Invalid table name format: ".toList ++ name

/-- Guard-and-DDL of the source's `createTable`: only the identifier
validation is behavioral at this level (the CREATE TABLE statement itself
adds the table, handled by callers of the model). -/
def createTable (name : List Char) : Except (List Char) Unit :=
  if matchesTablePattern name then .ok () else .error (invalidNameMsg name)

/-- The source's `createIndexes`: same guard; the non-throwing path returns
`true` (a store failure while creating the indexes is caught and returns
`false`; store failures are not modelled). -/
def createIndexes (name : List Char) : Except (List Char) Bool :=
  if matchesTablePattern name then .ok true else .error (invalidNameMsg name)

/-- Guard of the source's `dropTable` (`DROP TABLE IF EXISTS` itself is
modelled by the caller removing the name from its table list). -/
def dropTableCheck (name : List Char) : Except (List Char) Unit :=
  if matchesTablePattern name then .ok () else .error (invalidNameMsg name)

/-- Query answers the health gate reads from the store, one field per query
of `runHealthChecks`.  An inner `none` is a `null` from `first()`;
`prevQuery = none` means the previous-table count query threw (the source
only logs that). -/
structure DbView where
  newCount : Option ℕ
  prevQuery : Option (Option ℕ)
  sampleFound : Bool
  bothNullCount : Option ℕ
  indexCount : ℕ

structure HealthCheckResult where
  passed : Bool
  rowCount : ℕ
  previousRowCount : Option ℕ
  sampleLookupPassed : Bool
  nullCheckPassed : Bool
  indexesCreated : Bool
  errors : List (List Char)
  deriving DecidableEq

/-- JavaScript `Math.round`, in exact arithmetic. -/
def jsRound (q : ℚ) : ℤ := ⌊q + 1 / 2⌋

def rowDropMsg (rowCount p : ℕ) : List Char :=
  "Row count dropped significantly: ".toList ++ natDigits rowCount ++
    " vs previous ".toList ++ natDigits p ++ " (".toList ++
    natDigits (jsRound ((rowCount : ℚ) / p * 100)).toNat ++ "%)".toList

def nullMsg (bothNull rowCount : ℕ) : List Char :=
  "Too many rows with both DOIs null: ".toList ++ natDigits bothNull ++
    "/".toList ++ natDigits rowCount

/-- The source's `runHealthChecks`: the five checks in order, each failure
appending its reason to `errors`, with no short-circuiting.  The float
comparisons `rowCount < previousRowCount * 0.8` and
`bothNullCount < rowCount * 0.5` and `Math.round` are modelled in exact
arithmetic. -/
def runHealthChecks (db : DbView) (previousTableName : Option (List Char)) : HealthCheckResult :=
  let rowCount := db.newCount.getD 0
  let errors1 : List (List Char) :=
    if rowCount = 0 then ["New table has 0 rows".toList] else []
  let check2 : Option ℕ × List (List Char) :=
    match previousTableName with
    | some prev =>
        if matchesTablePattern prev then
          match db.prevQuery with
          | some pc =>
              let p := pc.getD 0
              (some p, if 0 < p ∧ rowCount * 5 < p * 4 then [rowDropMsg rowCount p] else [])
          | none => (none, [])
        else (none, [])
    | none => (none, [])
  let sampleLookupPassed := db.sampleFound
  let errors3 : List (List Char) :=
    if sampleLookupPassed then [] else ["Sample DOI lookup returned no results".toList]
  let bothNullCount := db.bothNullCount.getD 0
  let nullCheckPassed : Bool := decide (rowCount = 0 ∨ bothNullCount * 2 < rowCount)
  let errors4 : List (List Char) :=
    if nullCheckPassed then [] else [nullMsg bothNullCount rowCount]
  let indexesCreated : Bool := decide (2 ≤ db.indexCount)
  let errors5 : List (List Char) :=
    if indexesCreated then [] else ["Required indexes not found".toList]
  let errors := errors1 ++ check2.2 ++ errors3 ++ errors4 ++ errors5
  { passed := errors.isEmpty && decide (0 < rowCount),
    rowCount := rowCount,
    previousRowCount := check2.1,
    sampleLookupPassed := sampleLookupPassed,
    nullCheckPassed := nullCheckPassed,
    indexesCreated := indexesCreated,
    errors := errors }

def joinReasons (errors : List (List Char)) : List Char :=
  List.intercalate (", ".toList) errors

/-- Outcome of the activation decision: the KV active pointer after the
step, whether the pointer write executed, the surviving table list, and the
raised error message if any. -/
structure GateOutcome where
  active : Option (List Char)
  wrotePointer : Bool
  tables : List (List Char)
  raised : Option (List Char)
  deriving DecidableEq

/-- Step 6 of `runIngest`: on gate pass, put `ACTIVE_TABLE_KEY` to the new
table name (the metadata put is not tracked); on failure, drop the new table
and throw `Ingest health checks failed:` with the joined failure reasons.
A `dropTable` validation failure would itself throw, leaving the tables
unchanged. -/
def activationStep (active : Option (List Char)) (tables : List (List Char))
    (hc : HealthCheckResult) (newTableName : List Char) : GateOutcome :=
  if hc.passed then
    { active := some newTableName, wrotePointer := true, tables := tables, raised := none }
  else
    match dropTableCheck newTableName with
    | .ok _ =>
        { active := active, wrotePointer := false,
          tables := tables.filter (fun t => t != newTableName),
          raised := some ("Ingest health checks failed: ".toList ++ joinReasons hc.errors) }
    | .error e =>
        { active := active, wrotePointer := false, tables := tables, raised := some e }

/-- The source's `cleanupOldTables` as the list of dropped tables: walk the
listed `entries_%` names; skip the current (just-activated) table; skip
names whose timestamp does not parse; drop those whose decoded timestamp is
older than the cutoff.  `old` is the comparison `tableDate < cutoffDate`
with the 7-day cutoff folded in (real time is an input).  A throwing drop
would abort the loop through the outer catch, keeping what was already
dropped. -/
def cleanupOldTables (old : Timestamp → Bool) (tables : List (List Char))
    (currentTableName : List Char) : List (List Char) :=
  match tables with
  | [] => []
  | t :: rest =>
      if t == currentTableName then cleanupOldTables old rest currentTableName
      else
        match parseTableTimestamp t with
        | none => cleanupOldTables old rest currentTableName
        | some d =>
            if old d then
              match dropTableCheck t with
              | .ok _ => t :: cleanupOldTables old rest currentTableName
              | .error _ => []
            else cleanupOldTables old rest currentTableName

def MAX_RETRIES : ℕ := 3

def INITIAL_RETRY_DELAY_MS : ℤ := 1000

def RETRY_BACKOFF_MULTIPLIER : ℤ := 2

def TABLE_RETENTION_DAYS : ℕ := 7

/-- One `fetch(url, options)` outcome as the retry loop observes it: either
the promise rejected (network failure), or a response carrying its status,
its optional `Retry-After` header, and the `ok` and body-presence flags that
`runIngest` checks after the loop returns. -/
inductive FetchOutcome where
  | netError (msg : List Char)
  | response (status : ℕ) (retryAfter : Option (List Char)) (ok : Bool) (hasBody : Bool)

instance instDecEqExcept {ε α : Type} [DecidableEq ε] [DecidableEq α] :
    DecidableEq (Except ε α) := fun a b =>
  match a, b with
  | .ok x, .ok y =>
      match decEq x y with
      | isTrue h => isTrue (h ▸ rfl)
      | isFalse h => isFalse (fun hh => h (Except.ok.inj hh))
  | .error x, .error y =>
      match decEq x y with
      | isTrue h => isTrue (h ▸ rfl)
      | isFalse h => isFalse (fun hh => h (Except.error.inj hh))
  | .ok _, .error _ => isFalse (fun hh => Except.noConfusion hh)
  | .error _, .ok _ => isFalse (fun hh => Except.noConfusion hh)

structure FetchResult where
  result : Except (List Char) (ℕ × Bool × Bool)
  sleeps : List ℤ
  attemptsUsed : ℕ
  deriving DecidableEq

/-- Update of `delay` before the retry throw:
`delay = parseInt(retryAfter, 10) * 1000 || delay` keeps the old delay when
the parse is NaN or the product is `0` (both are falsy). -/
def retryAfterDelay (retryAfter : Option (List Char)) (delay : ℤ) : ℤ :=
  match retryAfter with
  | none => delay
  | some v =>
      match jsParseInt v with
      | none => delay
      | some k => if k * 1000 = 0 then delay else k * 1000

def serverErrMsg (status : ℕ) : List Char :=
  "Server error (".toList ++ natDigits status ++ ")".toList

def exhaustMsg (maxRetries : ℕ) (lastError : Option (List Char)) : List Char :=
  "CSV fetch failed after ".toList ++ natDigits maxRetries ++ " attempts: ".toList ++
    lastError.getD ("undefined".toList)

/-- The `for` loop of the source's `fetchWithRetry`, `fuel` being the number
of attempts still allowed (`maxRetries - attempt + 1`).  A retryable status
(5xx or 429) first lets `Retry-After` override the delay and then counts as
a failure; a rejected fetch is a failure with the delay untouched; a failure
with attempts remaining sleeps the current delay and doubles it; any other
response is returned at once; exhaustion throws the final message carrying
the last failure. -/
def fetchGo (f : ℕ → FetchOutcome) (maxRetries : ℕ) :
    ℕ → ℕ → ℤ → Option (List Char) → FetchResult
  | 0, _, _, lastError =>
      { result := .error (exhaustMsg maxRetries lastError), sleeps := [], attemptsUsed := 0 }
  | fuel + 1, attempt, delay, _ =>
      match f attempt with
      | .response s ra ok body =>
          if 500 ≤ s ∨ s = 429 then
            let d2 := retryAfterDelay ra delay
            let m := serverErrMsg s
            if fuel = 0 then
              { result := .error (exhaustMsg maxRetries (some m)), sleeps := [], attemptsUsed := 1 }
            else
              let rest := fetchGo f maxRetries fuel (attempt + 1)
                (d2 * RETRY_BACKOFF_MULTIPLIER) (some m)
              { result := rest.result, sleeps := d2 :: rest.sleeps,
                attemptsUsed := rest.attemptsUsed + 1 }
          else
            { result := .ok (s, ok, body), sleeps := [], attemptsUsed := 1 }
      | .netError m =>
          if fuel = 0 then
            { result := .error (exhaustMsg maxRetries (some m)), sleeps := [], attemptsUsed := 1 }
          else
            let rest := fetchGo f maxRetries fuel (attempt + 1)
              (delay * RETRY_BACKOFF_MULTIPLIER) (some m)
            { result := rest.result, sleeps := delay :: rest.sleeps,
              attemptsUsed := rest.attemptsUsed + 1 }

/-- The source's `fetchWithRetry` at its call site in `runIngest`: three
attempts starting from the 1000 ms initial delay. -/
def fetchWithRetry (f : ℕ → FetchOutcome) : FetchResult :=
  fetchGo f MAX_RETRIES MAX_RETRIES 1 INITIAL_RETRY_DELAY_MS none

def statusFailMsg (status : ℕ) : List Char :=
  "CSV fetch failed (".toList ++ natDigits status ++ ")".toList

/-- Step 1 of `runIngest` around the retry loop: a response the loop
returned still fails the run when `!response.ok || !response.body`. -/
def fetchStep (f : ℕ → FetchOutcome) : Except (List Char) (ℕ × Bool × Bool) :=
  match (fetchWithRetry f).result with
  | .error e => .error e
  | .ok (s, ok, body) =>
      if ok && body then .ok (s, ok, body) else .error (statusFailMsg s)

/-- Steps 6 and 7 of `runIngest` composed: the activation decision followed,
only when nothing was thrown, by the retention sweep with the just-activated
table as `currentTableName`.  Returns the gate outcome and the list of
tables the sweeper dropped. -/
def runIngestTail (old : Timestamp → Bool) (active : Option (List Char))
    (tables : List (List Char)) (hc : HealthCheckResult) (newTableName : List Char) :
    GateOutcome × List (List Char) :=
  let out := activationStep active tables hc newTableName
  match out.raised with
  | some _ => (out, [])
  | none => (out, cleanupOldTables old out.tables newTableName)

/-- Condition of the retry branch: HTTP 5xx or 429, or a rejected fetch. -/
def retryableOutcome : FetchOutcome → Bool
  | .netError _ => true
  | .response s _ _ _ => decide (500 ≤ s ∨ s = 429)

/-- Retry-After header of an outcome (a rejected fetch has none). -/
def raOf : FetchOutcome → Option (List Char)
  | .netError _ => none
  | .response _ ra _ _ => ra

/-- Failure message the retry loop records for an outcome. -/
def failMsgOf : FetchOutcome → List Char
  | .netError m => m
  | .response s _ _ _ => serverErrMsg s

/-- Response sequence seen by a three-attempt run: outcome of attempt 1, 2
and 3. -/
def traceOf (o1 o2 o3 : FetchOutcome) : ℕ → FetchOutcome :=
  fun a => if a = 1 then o1 else if a = 2 then o2 else o3

/-- Fixture: a cutoff predicate that calls every decoded timestamp old. -/
def alwaysOld : Timestamp → Bool := fun _ => true

/-- Fixture: a table listing with the new snapshot, an expired snapshot and
the legacy `entries` table. -/
def tablesEx : List (List Char) :=
  ["entries_20250101000000".toList, "entries_20240101000000".toList, "entries".toList]

/-- Fixture: the freshly generated snapshot name. -/
def newTEx : List Char := "entries_20250101000000".toList

/-- Fixture: an expired snapshot name. -/
def oldTEx : List Char := "entries_20240101000000".toList

/-- Fixture: a passing health-check result. -/
def hcPassEx : HealthCheckResult := ⟨true, 5, none, true, true, true, []⟩

example : jsNumber "  12 ".toList = some 12 := by decide
example : jsNumber "".toList = some 0 := by decide
example : jsNumber "-3".toList = some (-3) := by decide
example : jsNumber "abc".toList = none := by decide
example : jsParseInt "5s".toList = some 5 := by decide
example : splitCsvLine "a,\"b,c\",d".toList = ["a".toList, "b,c".toList, "d".toList] := by decide
example : splitCsvLine "\"a\"\"b\"".toList = ["a\"b".toList] := by decide

/-- Status of an outcome (a rejected fetch carries none; only used under the
hypothesis that the outcome is a response). -/
def statusOf : FetchOutcome → ℕ
  | .netError _ => 0
  | .response s _ _ _ => s

/-- The `response.ok` flag of an outcome. -/
def okOf : FetchOutcome → Bool
  | .netError _ => false
  | .response _ _ ok _ => ok

/-- The body-presence flag of an outcome. -/
def bodyOf : FetchOutcome → Bool
  | .netError _ => false
  | .response _ _ _ b => b

theorem digitChar_isDigit (d : ℕ) : (digitChar d).isDigit = true := by
  unfold digitChar
  set k := d % 10 with hk
  have h : k < 10 := by omega
  interval_cases k <;> decide

theorem pattern_of_parse {name : List Char} {d : Timestamp}
    (h : parseTableTimestamp name = some d) : matchesTablePattern name = true := by
  unfold parseTableTimestamp at h
  split at h
  · assumption
  · exact Option.noConfusion h

theorem dropCheck_ok_of_pattern {name : List Char} (h : matchesTablePattern name = true) :
    dropTableCheck name = .ok () := by
  simp [dropTableCheck, h]

/-- Loop of `cleanupOldTables`, characterized as a filter: a listed name is
dropped exactly when it differs from the current table, its timestamp
parses, and the decoded timestamp is older than the cutoff. -/
theorem cleanup_eq_filter (old : Timestamp → Bool) (tables : List (List Char))
    (current : List Char) :
    cleanupOldTables old tables current =
      tables.filter (fun t =>
        !(t == current) &&
          (match parseTableTimestamp t with | some d => old d | none => false)) := by
  induction tables with
  | nil => rfl
  | cons t0 rest ih =>
      simp only [cleanupOldTables, List.filter_cons]
      cases hb : (t0 == current) with
      | true => simp [hb, ih]
      | false =>
          cases hp : parseTableTimestamp t0 with
          | none => simp [hb, hp, ih]
          | some d =>
              cases hd : old d with
              | false => simp [hb, hp, hd, ih]
              | true =>
                  have hpat := pattern_of_parse hp
                  simp [hb, hp, hd, ih, dropTableCheck, hpat]

/-- C3: feeding the decoder the chunk `"hello, wor` and then `ld\nfoo"\n`
leaves the in-quotes flag and the row buffer pending after the first chunk,
emits exactly one row overall, and tokenizing that row yields exactly one
field `hello, world\nfoo`: the comma and embedded newline survive inside
the quotes and no extra row break occurs. -/
theorem C3_quoted_field_across_chunks :
    (processChunk ⟨[], false⟩ ("\"hello, wor".toList) false).1 =
        ⟨"\"hello, wor".toList, true⟩
    ∧ (processChunk ⟨[], false⟩ ("\"hello, wor".toList) false).2 = []
    ∧ (processChunk ⟨"\"hello, wor".toList, true⟩ ("ld\nfoo\"\n".toList) false).2 =
        ["\"hello, world\nfoo\"".toList]
    ∧ (processChunk ⟨"\"hello, wor".toList, true⟩ ("ld\nfoo\"\n".toList) false).1 = ⟨[], false⟩
    ∧ splitCsvLine "\"hello, world\nfoo\"".toList = ["hello, world\nfoo".toList] := by
  decide

/-- C4 counterexample: inside quotes, scanning the doubled quote `""` from
row buffer `a` leaves the buffer `a""` — the decoder appends BOTH quote
characters — and not the buffer `a"` that appending exactly one literal
quote character would produce. -/
theorem C4_counterexample :
    (scanChunk ("\"\"".toList) ⟨"a".toList, true⟩).1.currentRow = "a\"\"".toList
    ∧ "a\"\"".toList ≠ "a\"".toList := by
  decide

/-- C4 amended: in the streaming decoder's character scan, a double quote in
quoted mode followed by another double quote appends BOTH quote characters
to the row-accumulation buffer and skips the second (the doubled quote is
collapsed to a single literal quote only later, by the row tokenizer, as the
last conjunct shows); a quote that is not doubled toggles quoted mode and is
appended once. -/
theorem C4_amended_doubled_quote (row rest : List Char) (c : Char) (hc : c ≠ '"') :
    scanChunk ('"' :: '"' :: rest) ⟨row, true⟩ = scanChunk rest ⟨row ++ ['"', '"'], true⟩
    ∧ scanChunk ('"' :: c :: rest) ⟨row, true⟩ = scanChunk (c :: rest) ⟨row ++ ['"'], false⟩
    ∧ scanChunk ['"'] ⟨row, true⟩ = (⟨row ++ ['"'], false⟩, [])
    ∧ scanChunk ('"' :: rest) ⟨row, false⟩ = scanChunk rest ⟨row ++ ['"'], true⟩
    ∧ splitCsvLine "\"a\"\"b\"".toList = ["a\"b".toList] := by
  refine ⟨rfl, ?_, rfl, scanChunk.eq_4 rest row, by decide⟩
  exact scanChunk.eq_3 (c :: rest) row fun r1 h => hc (by injection h)

/-- Witness for the C4 amended theorem at a concrete non-quote lookahead. -/
theorem C4_amended_doubled_quote_witness :
    ('x' ≠ '"')
    ∧ (scanChunk ('"' :: '"' :: "b".toList) ⟨"a".toList, true⟩ =
          scanChunk "b".toList ⟨"a".toList ++ ['"', '"'], true⟩
      ∧ scanChunk ('"' :: 'x' :: "b".toList) ⟨"a".toList, true⟩ =
          scanChunk ('x' :: "b".toList) ⟨"a".toList ++ ['"'], false⟩
      ∧ scanChunk ['"'] ⟨"a".toList, true⟩ = (⟨"a".toList ++ ['"'], false⟩, [])
      ∧ scanChunk ('"' :: "b".toList) ⟨"a".toList, false⟩ =
          scanChunk "b".toList ⟨"a".toList ++ ['"'], true⟩
      ∧ splitCsvLine "\"a\"\"b\"".toList = ["a\"b".toList]) :=
  ⟨by decide, C4_amended_doubled_quote "a".toList "b".toList 'x' (by decide)⟩

/-- C2: whenever the retention sweeper executes (nothing was thrown by the
activation step), the active pointer holds the new snapshot's identifier,
the sweeper never drops that identifier — whatever its encoded timestamp —
and it drops exactly the other listed tables whose decoded timestamp parses
and is older than the retention window. -/
theorem C2_sweeper_never_drops_active (old : Timestamp → Bool)
    (active : Option (List Char)) (tables : List (List Char))
    (hc : HealthCheckResult) (newT t : List Char)
    (hrun : (runIngestTail old active tables hc newT).1.raised = none) :
    (runIngestTail old active tables hc newT).1.active = some newT
    ∧ newT ∉ (runIngestTail old active tables hc newT).2
    ∧ (t ∈ (runIngestTail old active tables hc newT).2 ↔
        t ∈ tables ∧ t ≠ newT ∧ ∃ d, parseTableTimestamp t = some d ∧ old d = true) := by
  have hpass : hc.passed = true := by
    cases hp : hc.passed with
    | true => rfl
    | false =>
        cases hdt : dropTableCheck newT with
        | ok u => simp [runIngestTail, activationStep, hp, hdt] at hrun
        | error e => simp [runIngestTail, activationStep, hp, hdt] at hrun
  simp only [runIngestTail, activationStep, hpass, if_pos]
  refine ⟨trivial, ?_, ?_⟩
  · rw [cleanup_eq_filter]
    simp [List.mem_filter]
  · rw [cleanup_eq_filter]
    simp only [List.mem_filter]
    constructor
    · rintro ⟨hmem, hpred⟩
      cases hp2 : parseTableTimestamp t with
      | none => simp [hp2] at hpred
      | some d =>
          simp [hp2] at hpred
          exact ⟨hmem, by simpa using hpred.1, d, rfl, hpred.2⟩
    · rintro ⟨hmem, hne, d, hpd, hod⟩
      refine ⟨hmem, ?_⟩
      simp [hpd, hod, hne]

/-- Witness for C2 at a run state with a passing gate, an expired snapshot
whose timestamp is older than the window, and the legacy table listed. -/
theorem C2_sweeper_never_drops_active_witness :
    (runIngestTail alwaysOld (some oldTEx) tablesEx hcPassEx newTEx).1.active = some newTEx
    ∧ newTEx ∉ (runIngestTail alwaysOld (some oldTEx) tablesEx hcPassEx newTEx).2
    ∧ (oldTEx ∈ (runIngestTail alwaysOld (some oldTEx) tablesEx hcPassEx newTEx).2 ↔
        oldTEx ∈ tablesEx ∧ oldTEx ≠ newTEx ∧
          ∃ d, parseTableTimestamp oldTEx = some d ∧ alwaysOld d = true) :=
  C2_sweeper_never_drops_active alwaysOld (some oldTEx) tablesEx hcPassEx newTEx oldTEx
    (by decide)

/-- C10: everything the retention sweeper drops matches `entries_` followed
by exactly 14 digits (names whose timestamp fails to parse are skipped), the
drop guard accepts every dropped name, the legacy table `entries` is never
dropped, and the drop operation itself rejects any non-conforming name. -/
theorem C10_sweeper_only_snapshot_tables (old : Timestamp → Bool)
    (tables : List (List Char)) (current t name : List Char)
    (ht : t ∈ cleanupOldTables old tables current)
    (hn : matchesTablePattern name = false) :
    matchesTablePattern t = true
    ∧ dropTableCheck t = .ok ()
    ∧ "entries".toList ∉ cleanupOldTables old tables current
    ∧ dropTableCheck name = .error (invalidNameMsg name) := by
  rw [cleanup_eq_filter] at ht
  rw [List.mem_filter] at ht
  obtain ⟨hmem, hpred⟩ := ht
  have hparse : ∃ d, parseTableTimestamp t = some d := by
    cases hp2 : parseTableTimestamp t with
    | none => simp [hp2] at hpred
    | some d => exact ⟨d, rfl⟩
  obtain ⟨d, hd⟩ := hparse
  have hpat := pattern_of_parse hd
  refine ⟨hpat, dropCheck_ok_of_pattern hpat, ?_, by simp [dropTableCheck, hn]⟩
  rw [cleanup_eq_filter, List.mem_filter]
  rintro ⟨_, hpred2⟩
  have hone : parseTableTimestamp ['e', 'n', 't', 'r', 'i', 'e', 's'] = none := by decide
  simp [hone] at hpred2

/-- Witness for C10: with every timestamp old, the sweep over the fixture
tables drops the expired snapshot and the legacy `entries` name is rejected
by the drop guard. -/
theorem C10_sweeper_only_snapshot_tables_witness :
    matchesTablePattern oldTEx = true
    ∧ dropTableCheck oldTEx = .ok ()
    ∧ "entries".toList ∉ cleanupOldTables alwaysOld tablesEx newTEx
    ∧ dropTableCheck "entries".toList = .error (invalidNameMsg "entries".toList) :=
  C10_sweeper_only_snapshot_tables alwaysOld tablesEx newTEx oldTEx "entries".toList
    (by decide) (by decide)

/-- Characterization of the source's `validateRow`: the row is valid exactly
when the `Record ID` cell is defined, non-blank after trimming, and
`Number(...)` of it is finite and strictly positive. -/
theorem validateRow_valid_iff (record : List (List Char × List Char)) :
    (validateRow record).valid = true ↔
      ∃ v q, jsGet record recordIdKey = some v ∧ jsTrim v ≠ [] ∧
        jsNumber v = some q ∧ 0 < q := by
  constructor
  · intro hv
    rcases hg : jsGet record recordIdKey with _ | v
    · simp [validateRow, hg] at hv
    · by_cases ht : jsTrim v = []
      · simp [validateRow, hg, ht] at hv
      · rcases hn : jsNumber v with _ | q
        · simp [validateRow, hg, ht, hn] at hv
        · by_cases hq : q ≤ 0
          · simp [validateRow, hg, ht, hn, hq] at hv
          · exact ⟨v, q, rfl, ht, hn, lt_of_not_le hq⟩
  · rintro ⟨v, q, hg, ht, hn, hq⟩
    simp [validateRow, hg, ht, hn, not_le.mpr hq]

/-- On a non-empty all-digit string the unsigned grammar yields exactly the
decimal value of the digits. -/
theorem parseUnsigned_all_digits (s : List Char) (hne : s ≠ [])
    (h : s.all Char.isDigit = true) :
    parseUnsigned s = some ((digitsToNat s) : ℚ) := by
  have htake : s.takeWhile Char.isDigit = s := by
    rw [List.takeWhile_eq_self_iff]
    intro x hx
    exact List.all_eq_true.mp h x hx
  unfold parseUnsigned
  simp only [htake, List.drop_length]
  simp [List.isEmpty_iff, hne]

/-- On a string that trims to digits, `Number(...)` yields exactly the
integer value of those digits (the empty string giving `0`). -/
theorem jsNumber_all_digits (v : List Char) (h : (jsTrim v).all Char.isDigit = true) :
    jsNumber v = some ((digitsToNat (jsTrim v)) : ℚ) := by
  unfold jsNumber
  rcases ht : jsTrim v with _ | ⟨c, rest⟩
  · simp [digitsToNat]
  · rw [ht] at h
    have hc : c.isDigit = true := List.all_eq_true.mp h c (by simp)
    have hplus : c ≠ '+' := by rintro rfl; simp [Char.isDigit] at hc
    have hminus : c ≠ '-' := by rintro rfl; simp [Char.isDigit] at hc
    have hres : parseUnsigned (c :: rest) = some ((digitsToNat (c :: rest)) : ℚ) :=
      parseUnsigned_all_digits (c :: rest) (by simp) h
    split
    · rename_i heq
      exact absurd heq (by simp)
    · rename_i r heq
      exact absurd heq (by simp [hplus])
    · rename_i r heq
      exact absurd heq (by simp [hminus])
    · rename_i heq
      simp_all

/-- C5: the validator accepts a row exactly when its `Record ID` cell is
present, non-blank, and parses to a finite number greater than zero; a
rejected (non-blank, invalid) row bumps only the skip counter and the row
number, stores no record, and the per-row step is a total function — the
run continues. -/
theorem C5_validator_required_field (record : List (List Char × List Char))
    (norm : Option (List Char) → Option (List Char)) (now : ℕ)
    (columns : List (List Char)) (st : StreamCounters) (row : List Char)
    (hrow : jsTrim row ≠ [])
    (hinv : (validateRow (buildRecord columns (splitCsvLine row))).valid = false) :
    ((validateRow record).valid = true ↔
      ∃ v q, jsGet record recordIdKey = some v ∧ jsTrim v ≠ [] ∧
        jsNumber v = some q ∧ 0 < q)
    ∧ ingestRow norm now columns st row =
        { st with rowNumber := st.rowNumber + 1, skippedRows := st.skippedRows + 1 } := by
  refine ⟨validateRow_valid_iff record, ?_⟩
  have hr : processRow norm now columns row =
      .skipped ((validateRow (buildRecord columns (splitCsvLine row))).reason.getD []) := by
    simp [processRow, hrow, hinv]
  simp [ingestRow, hr]

/-- Witness for C5: a valid record with `Record ID` `7`, and the row `abc`
rejected from fresh counters. -/
theorem C5_validator_required_field_witness :
    ((validateRow (buildRecord [recordIdKey] ["7".toList])).valid = true ↔
      ∃ v q, jsGet (buildRecord [recordIdKey] ["7".toList]) recordIdKey = some v ∧
        jsTrim v ≠ [] ∧ jsNumber v = some q ∧ 0 < q)
    ∧ ingestRow (fun _ => none) 0 [recordIdKey] ⟨0, 0, 0, []⟩ "abc".toList =
        (⟨0, 1, 1, []⟩ : StreamCounters) :=
  C5_validator_required_field (buildRecord [recordIdKey] ["7".toList]) (fun _ => none) 0
    [recordIdKey] ⟨0, 0, 0, []⟩ "abc".toList (by decide) (by decide)

/-- C6: for every accepted row, the stored `record_id` equals the number
`Number(...)` parses from the row's `Record ID` cell, is positive, and when
the trimmed cell is a plain digit string it equals that integer. -/
theorem C6_stored_record_id (norm : Option (List Char) → Option (List Char)) (now : ℕ)
    (columns : List (List Char)) (row : List Char) (r : StoredRecord)
    (h : processRow norm now columns row = .stored r) :
    ∃ v, jsGet (buildRecord columns (splitCsvLine row)) recordIdKey = some v
      ∧ jsNumber v = some r.recordId
      ∧ 0 < r.recordId
      ∧ ((jsTrim v).all Char.isDigit = true → r.recordId = ((digitsToNat (jsTrim v)) : ℚ)) := by
  by_cases hrow : jsTrim row = []
  · simp [processRow, hrow] at h
  · by_cases hval : (validateRow (buildRecord columns (splitCsvLine row))).valid = true
    · obtain ⟨v, q, hg, ht, hn, hq⟩ :=
        (validateRow_valid_iff (buildRecord columns (splitCsvLine row))).mp hval
      simp [processRow, hrow, hval] at h
      have hid : r.recordId = q := by
        rw [← h]
        simp [jsNumberAt, hg, hn]
      refine ⟨v, hg, ?_, ?_, ?_⟩
      · rw [hid]; exact hn
      · rw [hid]; exact hq
      · intro hd
        have hall := jsNumber_all_digits v hd
        rw [hn] at hall
        rw [hid]
        exact Option.some.inj hall
    · simp [processRow, hrow, hval] at h

/-- Witness for C6 at the row `7`: the stored record carries `record_id 7`. -/
theorem C6_stored_record_id_witness :
    ∃ v, jsGet (buildRecord [recordIdKey] (splitCsvLine "7".toList)) recordIdKey = some v
      ∧ jsNumber v = some (7 : ℚ)
      ∧ (0 : ℚ) < 7
      ∧ ((jsTrim v).all Char.isDigit = true → (7 : ℚ) = ((digitsToNat (jsTrim v)) : ℚ)) :=
  C6_stored_record_id (fun _ => none) 0 [recordIdKey] "7".toList
    ⟨7, none, none, buildRecord [recordIdKey] ["7".toList], 0⟩ (by decide)

/-- C9: every record the worker validator accepts is also accepted by the
offline csv-to-sql script, while the script additionally accepts a blank
`Record ID` (emitting `record_id 0`), a zero id, and a negative id, all of
which the worker rejects — the script's acceptance predicate is strictly
weaker. -/
theorem C9_script_strictly_weaker (record : List (List Char × List Char))
    (hv : (validateRow record).valid = true) :
    scriptAccepts record = true
    ∧ scriptAccepts (buildRecord [recordIdKey] [[]]) = true
    ∧ (validateRow (buildRecord [recordIdKey] [[]])).valid = false
    ∧ scriptEmit (buildRecord [recordIdKey] [[]]) = some 0
    ∧ scriptAccepts (buildRecord [recordIdKey] ["0".toList]) = true
    ∧ (validateRow (buildRecord [recordIdKey] ["0".toList])).valid = false
    ∧ scriptAccepts (buildRecord [recordIdKey] ["-3".toList]) = true
    ∧ (validateRow (buildRecord [recordIdKey] ["-3".toList])).valid = false
    ∧ scriptEmit (buildRecord [recordIdKey] ["-3".toList]) = some (-3) := by
  obtain ⟨v, q, hg, ht, hn, hq⟩ := (validateRow_valid_iff record).mp hv
  refine ⟨?_, by decide, by decide, by decide, by decide, by decide, by decide,
    by decide, by decide⟩
  simp [scriptAccepts, scriptEmit, jsNumberAt, hg, hn]

/-- Witness for C9 at a worker-accepted record with `Record ID` `7`. -/
theorem C9_script_strictly_weaker_witness :
    scriptAccepts (buildRecord [recordIdKey] ["7".toList]) = true
    ∧ scriptAccepts (buildRecord [recordIdKey] [[]]) = true
    ∧ (validateRow (buildRecord [recordIdKey] [[]])).valid = false
    ∧ scriptEmit (buildRecord [recordIdKey] [[]]) = some 0
    ∧ scriptAccepts (buildRecord [recordIdKey] ["0".toList]) = true
    ∧ (validateRow (buildRecord [recordIdKey] ["0".toList])).valid = false
    ∧ scriptAccepts (buildRecord [recordIdKey] ["-3".toList]) = true
    ∧ (validateRow (buildRecord [recordIdKey] ["-3".toList])).valid = false
    ∧ scriptEmit (buildRecord [recordIdKey] ["-3".toList]) = some (-3) :=
  C9_script_strictly_weaker (buildRecord [recordIdKey] ["7".toList]) (by decide)

theorem fetchGo_return (f : ℕ → FetchOutcome) (m fuel attempt : ℕ) (delay : ℤ)
    (last : Option (List Char)) (s : ℕ) (ra : Option (List Char)) (ok body : Bool)
    (hf : f attempt = .response s ra ok body) (hnr : ¬(500 ≤ s ∨ s = 429)) :
    fetchGo f m (fuel + 1) attempt delay last = ⟨.ok (s, ok, body), [], 1⟩ := by
  simp [fetchGo, hf, hnr]

theorem fetchGo_retry (f : ℕ → FetchOutcome) (m fuel attempt : ℕ) (delay : ℤ)
    (last : Option (List Char)) (o : FetchOutcome)
    (hf : f attempt = o) (hr : retryableOutcome o = true) (hfuel : fuel ≠ 0) :
    fetchGo f m (fuel + 1) attempt delay last =
      { result := (fetchGo f m fuel (attempt + 1)
          (retryAfterDelay (raOf o) delay * RETRY_BACKOFF_MULTIPLIER)
          (some (failMsgOf o))).result,
        sleeps := retryAfterDelay (raOf o) delay ::
          (fetchGo f m fuel (attempt + 1)
            (retryAfterDelay (raOf o) delay * RETRY_BACKOFF_MULTIPLIER)
            (some (failMsgOf o))).sleeps,
        attemptsUsed := (fetchGo f m fuel (attempt + 1)
          (retryAfterDelay (raOf o) delay * RETRY_BACKOFF_MULTIPLIER)
          (some (failMsgOf o))).attemptsUsed + 1 } := by
  cases o with
  | netError msg =>
      simp [fetchGo, hf, hfuel, raOf, failMsgOf, retryAfterDelay]
  | response s ra ok body =>
      have hsr : 500 ≤ s ∨ s = 429 := by simpa [retryableOutcome] using hr
      simp [fetchGo, hf, hfuel, hsr, raOf, failMsgOf]

theorem fetchGo_last_fail (f : ℕ → FetchOutcome) (m attempt : ℕ) (delay : ℤ)
    (last : Option (List Char)) (o : FetchOutcome)
    (hf : f attempt = o) (hr : retryableOutcome o = true) :
    fetchGo f m 1 attempt delay last =
      ⟨.error (exhaustMsg m (some (failMsgOf o))), [], 1⟩ := by
  cases o with
  | netError msg => simp [fetchGo, hf, failMsgOf]
  | response s ra ok body =>
      have hsr : 500 ≤ s ∨ s = 429 := by simpa [retryableOutcome] using hr
      simp [fetchGo, hf, hsr, failMsgOf]

theorem fetchGo_one (f : ℕ → FetchOutcome) (m attempt : ℕ) (delay : ℤ)
    (last : Option (List Char)) :
    (fetchGo f m 1 attempt delay last).sleeps = []
    ∧ (fetchGo f m 1 attempt delay last).attemptsUsed = 1 := by
  cases ho : f attempt with
  | netError m2 => simp [fetchGo, ho]
  | response s ra ok body =>
      by_cases hsr : 500 ≤ s ∨ s = 429
      · simp [fetchGo, ho, hsr]
      · simp [fetchGo, ho, hsr]

theorem fetchGo_attempts_le (f : ℕ → FetchOutcome) (m : ℕ) :
    ∀ fuel attempt (delay : ℤ) last,
      (fetchGo f m fuel attempt delay last).attemptsUsed ≤ fuel := by
  intro fuel
  induction fuel with
  | zero => intro attempt delay last; simp [fetchGo]
  | succ k ih =>
      intro attempt delay last
      cases ho : f attempt with
      | response s ra ok body =>
          by_cases hsr : 500 ≤ s ∨ s = 429
          · by_cases hk : k = 0
            · subst hk
              rw [fetchGo_last_fail f m attempt delay last _ ho
                (by simp [retryableOutcome, hsr])]
            · rw [fetchGo_retry f m k attempt delay last _ ho
                (by simp [retryableOutcome, hsr]) hk]
              exact Nat.succ_le_succ (ih _ _ _)
          · rw [fetchGo_return f m k attempt delay last s ra ok body ho hsr]
            simp
      | netError m2 =>
          by_cases hk : k = 0
          · subst hk
            rw [fetchGo_last_fail f m attempt delay last _ ho (by simp [retryableOutcome])]
          · rw [fetchGo_retry f m k attempt delay last _ ho (by simp [retryableOutcome]) hk]
            exact Nat.succ_le_succ (ih _ _ _)

/-- C8 amended: the fetcher retries a request on HTTP 5xx and 429 (and on a
rejected fetch) up to a ceiling of 3 attempts, sleeping between attempts a
delay that starts at the fixed 1000 ms value and doubles after each attempt,
except that a `Retry-After` header whose `parseInt` value times 1000 is
nonzero overrides the computed delay for the next attempt (an absent,
unparsable, or zero-parsing header leaves the computed delay in place, per
`retryAfterDelay`); non-retryable responses, including 4xx other than 429,
are returned after a single attempt and a non-ok one makes the run raise
`CSV fetch failed (status)`; exhaustion raises the message carrying the last
underlying failure. -/
theorem C8_amended_retry_policy (o1 o2 o3 : FetchOutcome) :
    (fetchWithRetry (traceOf o1 o2 o3)).attemptsUsed ≤ MAX_RETRIES
    ∧ (retryableOutcome o1 = false →
        (fetchWithRetry (traceOf o1 o2 o3)).result = .ok (statusOf o1, okOf o1, bodyOf o1)
        ∧ (fetchWithRetry (traceOf o1 o2 o3)).attemptsUsed = 1
        ∧ (fetchWithRetry (traceOf o1 o2 o3)).sleeps = []
        ∧ (okOf o1 = false →
            fetchStep (traceOf o1 o2 o3) = .error (statusFailMsg (statusOf o1))))
    ∧ (retryableOutcome o1 = true →
        ((fetchWithRetry (traceOf o1 o2 o3)).sleeps.head? =
            some (retryAfterDelay (raOf o1) INITIAL_RETRY_DELAY_MS))
        ∧ (retryableOutcome o2 = false →
            (fetchWithRetry (traceOf o1 o2 o3)).result = .ok (statusOf o2, okOf o2, bodyOf o2)
            ∧ (fetchWithRetry (traceOf o1 o2 o3)).attemptsUsed = 2
            ∧ (fetchWithRetry (traceOf o1 o2 o3)).sleeps =
                [retryAfterDelay (raOf o1) INITIAL_RETRY_DELAY_MS])
        ∧ (retryableOutcome o2 = true →
            (fetchWithRetry (traceOf o1 o2 o3)).sleeps =
              [retryAfterDelay (raOf o1) INITIAL_RETRY_DELAY_MS,
               retryAfterDelay (raOf o2)
                 (retryAfterDelay (raOf o1) INITIAL_RETRY_DELAY_MS * RETRY_BACKOFF_MULTIPLIER)]
            ∧ (fetchWithRetry (traceOf o1 o2 o3)).attemptsUsed = MAX_RETRIES
            ∧ (retryableOutcome o3 = false →
                (fetchWithRetry (traceOf o1 o2 o3)).result =
                  .ok (statusOf o3, okOf o3, bodyOf o3))
            ∧ (retryableOutcome o3 = true →
                (fetchWithRetry (traceOf o1 o2 o3)).result =
                  .error (exhaustMsg MAX_RETRIES (some (failMsgOf o3)))))) := by
  set f := traceOf o1 o2 o3 with hfdef
  have hf1 : f 1 = o1 := rfl
  have hf2 : f 2 = o2 := rfl
  have hf3 : f 3 = o3 := rfl
  refine ⟨?_, ?_, ?_⟩
  · exact fetchGo_attempts_le f MAX_RETRIES MAX_RETRIES 1 INITIAL_RETRY_DELAY_MS none
  · intro hnr
    cases o1 with
    | netError m => simp [retryableOutcome] at hnr
    | response s ra ok body =>
        have hsr : ¬(500 ≤ s ∨ s = 429) := by simpa [retryableOutcome] using hnr
        have e0 : fetchWithRetry f = ⟨.ok (s, ok, body), [], 1⟩ := by
          show fetchGo f 3 (2 + 1) 1 INITIAL_RETRY_DELAY_MS none = _
          exact fetchGo_return f 3 2 1 INITIAL_RETRY_DELAY_MS none s ra ok body hf1 hsr
        refine ⟨by rw [e0]; rfl, by rw [e0], by rw [e0], ?_⟩
        intro hok
        have er : (fetchWithRetry f).result = .ok (s, ok, body) := by rw [e0]
        have hok2 : ok = false := hok
        simp [fetchStep, er, hok2, statusOf]
  · intro hr1
    have e1 : fetchWithRetry f =
        { result := (fetchGo f 3 2 2
            (retryAfterDelay (raOf o1) INITIAL_RETRY_DELAY_MS * RETRY_BACKOFF_MULTIPLIER)
            (some (failMsgOf o1))).result,
          sleeps := retryAfterDelay (raOf o1) INITIAL_RETRY_DELAY_MS ::
            (fetchGo f 3 2 2
              (retryAfterDelay (raOf o1) INITIAL_RETRY_DELAY_MS * RETRY_BACKOFF_MULTIPLIER)
              (some (failMsgOf o1))).sleeps,
          attemptsUsed := (fetchGo f 3 2 2
            (retryAfterDelay (raOf o1) INITIAL_RETRY_DELAY_MS * RETRY_BACKOFF_MULTIPLIER)
            (some (failMsgOf o1))).attemptsUsed + 1 } := by
      show fetchGo f 3 (2 + 1) 1 INITIAL_RETRY_DELAY_MS none = _
      exact fetchGo_retry f 3 2 1 INITIAL_RETRY_DELAY_MS none o1 hf1 hr1 (by norm_num)
    refine ⟨by rw [e1]; rfl, ?_, ?_⟩
    · intro hnr2
      cases o2 with
      | netError m => simp [retryableOutcome] at hnr2
      | response s ra ok body =>
          have hsr : ¬(500 ≤ s ∨ s = 429) := by simpa [retryableOutcome] using hnr2
          have e2 : fetchGo f 3 2 2
              (retryAfterDelay (raOf o1) INITIAL_RETRY_DELAY_MS * RETRY_BACKOFF_MULTIPLIER)
              (some (failMsgOf o1)) = ⟨.ok (s, ok, body), [], 1⟩ := by
            show fetchGo f 3 (1 + 1) 2 _ _ = _
            exact fetchGo_return f 3 1 2 _ _ s ra ok body hf2 hsr
          refine ⟨by rw [e1, e2]; rfl, by rw [e1, e2], by rw [e1, e2]⟩
    · intro hr2
      have e2 : fetchGo f 3 2 2
          (retryAfterDelay (raOf o1) INITIAL_RETRY_DELAY_MS * RETRY_BACKOFF_MULTIPLIER)
          (some (failMsgOf o1)) =
          { result := (fetchGo f 3 1 3
              (retryAfterDelay (raOf o2)
                (retryAfterDelay (raOf o1) INITIAL_RETRY_DELAY_MS * RETRY_BACKOFF_MULTIPLIER) *
                RETRY_BACKOFF_MULTIPLIER)
              (some (failMsgOf o2))).result,
            sleeps := retryAfterDelay (raOf o2)
                (retryAfterDelay (raOf o1) INITIAL_RETRY_DELAY_MS * RETRY_BACKOFF_MULTIPLIER) ::
              (fetchGo f 3 1 3
                (retryAfterDelay (raOf o2)
                  (retryAfterDelay (raOf o1) INITIAL_RETRY_DELAY_MS * RETRY_BACKOFF_MULTIPLIER) *
                  RETRY_BACKOFF_MULTIPLIER)
                (some (failMsgOf o2))).sleeps,
            attemptsUsed := (fetchGo f 3 1 3
              (retryAfterDelay (raOf o2)
                (retryAfterDelay (raOf o1) INITIAL_RETRY_DELAY_MS * RETRY_BACKOFF_MULTIPLIER) *
                RETRY_BACKOFF_MULTIPLIER)
              (some (failMsgOf o2))).attemptsUsed + 1 } := by
        show fetchGo f 3 (1 + 1) 2 _ _ = _
        exact fetchGo_retry f 3 1 2 _ _ o2 hf2 hr2 (by norm_num)
      have hone := fetchGo_one f 3 3
        (retryAfterDelay (raOf o2)
          (retryAfterDelay (raOf o1) INITIAL_RETRY_DELAY_MS * RETRY_BACKOFF_MULTIPLIER) *
          RETRY_BACKOFF_MULTIPLIER)
        (some (failMsgOf o2))
      refine ⟨?_, ?_, ?_, ?_⟩
      · rw [e1, e2]
        simp [hone.1]
      · rw [e1, e2]
        simp [hone.2, MAX_RETRIES]
      · intro hnr3
        cases o3 with
        | netError m => simp [retryableOutcome] at hnr3
        | response s ra ok body =>
            have hsr : ¬(500 ≤ s ∨ s = 429) := by simpa [retryableOutcome] using hnr3
            have e3 : fetchGo f 3 1 3
                (retryAfterDelay (raOf o2)
                  (retryAfterDelay (raOf o1) INITIAL_RETRY_DELAY_MS * RETRY_BACKOFF_MULTIPLIER) *
                  RETRY_BACKOFF_MULTIPLIER)
                (some (failMsgOf o2)) = ⟨.ok (s, ok, body), [], 1⟩ := by
              show fetchGo f 3 (0 + 1) 3 _ _ = _
              exact fetchGo_return f 3 0 3 _ _ s ra ok body hf3 hsr
            rw [e1, e2, e3]
            rfl
      · intro hr3
        have e3 := fetchGo_last_fail f 3 3
          (retryAfterDelay (raOf o2)
            (retryAfterDelay (raOf o1) INITIAL_RETRY_DELAY_MS * RETRY_BACKOFF_MULTIPLIER) *
            RETRY_BACKOFF_MULTIPLIER)
          (some (failMsgOf o2)) o3 hf3 hr3
        rw [e1, e2, e3]
        rfl

/-- C8 counterexample to the claim as stated: the first attempt returns a
500 carrying `Retry-After: 0`; the claim's override would make the next
sleep `0 * 1000 = 0` ms, but the loop sleeps the computed 1000 ms delay —
`parseInt('0') * 1000` is falsy, so `|| delay` keeps the old value. -/
theorem C8_counterexample :
    jsParseInt ("0".toList) = some 0
    ∧ (fetchWithRetry (traceOf (.response 500 (some ("0".toList)) false true)
        (.response 200 none true true) (.response 200 none true true))).sleeps = [1000]
    ∧ (0 : ℤ) * 1000 = 0
    ∧ (1000 : ℤ) ≠ 0 := by
  decide

/-- Witness for the C8 amended theorem: a 503 with `Retry-After: 7`, then a
rejected fetch, then a clean 200. -/
theorem C8_amended_retry_policy_witness :
    (fetchWithRetry (traceOf (.response 503 (some ("7".toList)) false true)
        (.netError ("boom".toList)) (.response 200 none true true))).attemptsUsed ≤ MAX_RETRIES
    ∧ (retryableOutcome (.response 503 (some ("7".toList)) false true) = false →
        (fetchWithRetry (traceOf (.response 503 (some ("7".toList)) false true)
            (.netError ("boom".toList)) (.response 200 none true true))).result =
          .ok (statusOf (.response 503 (some ("7".toList)) false true),
            okOf (.response 503 (some ("7".toList)) false true),
            bodyOf (.response 503 (some ("7".toList)) false true))
        ∧ (fetchWithRetry (traceOf (.response 503 (some ("7".toList)) false true)
            (.netError ("boom".toList)) (.response 200 none true true))).attemptsUsed = 1
        ∧ (fetchWithRetry (traceOf (.response 503 (some ("7".toList)) false true)
            (.netError ("boom".toList)) (.response 200 none true true))).sleeps = []
        ∧ (okOf (.response 503 (some ("7".toList)) false true) = false →
            fetchStep (traceOf (.response 503 (some ("7".toList)) false true)
                (.netError ("boom".toList)) (.response 200 none true true)) =
              .error (statusFailMsg (statusOf (.response 503 (some ("7".toList)) false true)))))
    ∧ (retryableOutcome (.response 503 (some ("7".toList)) false true) = true →
        ((fetchWithRetry (traceOf (.response 503 (some ("7".toList)) false true)
            (.netError ("boom".toList)) (.response 200 none true true))).sleeps.head? =
          some (retryAfterDelay (raOf (.response 503 (some ("7".toList)) false true))
            INITIAL_RETRY_DELAY_MS))
        ∧ (retryableOutcome (.netError ("boom".toList)) = false →
            (fetchWithRetry (traceOf (.response 503 (some ("7".toList)) false true)
                (.netError ("boom".toList)) (.response 200 none true true))).result =
              .ok (statusOf (.netError ("boom".toList)), okOf (.netError ("boom".toList)),
                bodyOf (.netError ("boom".toList)))
            ∧ (fetchWithRetry (traceOf (.response 503 (some ("7".toList)) false true)
                (.netError ("boom".toList)) (.response 200 none true true))).attemptsUsed = 2
            ∧ (fetchWithRetry (traceOf (.response 503 (some ("7".toList)) false true)
                (.netError ("boom".toList)) (.response 200 none true true))).sleeps =
              [retryAfterDelay (raOf (.response 503 (some ("7".toList)) false true))
                INITIAL_RETRY_DELAY_MS])
        ∧ (retryableOutcome (.netError ("boom".toList)) = true →
            (fetchWithRetry (traceOf (.response 503 (some ("7".toList)) false true)
                (.netError ("boom".toList)) (.response 200 none true true))).sleeps =
              [retryAfterDelay (raOf (.response 503 (some ("7".toList)) false true))
                 INITIAL_RETRY_DELAY_MS,
               retryAfterDelay (raOf (.netError ("boom".toList)))
                 (retryAfterDelay (raOf (.response 503 (some ("7".toList)) false true))
                   INITIAL_RETRY_DELAY_MS * RETRY_BACKOFF_MULTIPLIER)]
            ∧ (fetchWithRetry (traceOf (.response 503 (some ("7".toList)) false true)
                (.netError ("boom".toList)) (.response 200 none true true))).attemptsUsed =
              MAX_RETRIES
            ∧ (retryableOutcome (.response 200 none true true) = false →
                (fetchWithRetry (traceOf (.response 503 (some ("7".toList)) false true)
                    (.netError ("boom".toList)) (.response 200 none true true))).result =
                  .ok (statusOf (.response 200 none true true),
                    okOf (.response 200 none true true), bodyOf (.response 200 none true true)))
            ∧ (retryableOutcome (.response 200 none true true) = true →
                (fetchWithRetry (traceOf (.response 503 (some ("7".toList)) false true)
                    (.netError ("boom".toList)) (.response 200 none true true))).result =
                  .error (exhaustMsg MAX_RETRIES
                    (some (failMsgOf (.response 200 none true true))))))) :=
  C8_amended_retry_policy (.response 503 (some ("7".toList)) false true)
    (.netError ("boom".toList)) (.response 200 none true true)

/-- C1: the health gate passes exactly when no check failed and the row
count is positive; the active pointer is written (to the new snapshot's
identifier) exactly when the gate passes; on a pass nothing is raised and no
table is dropped; on any failed check the new snapshot's table is dropped,
the raised message is `Ingest health checks failed:` followed by the joined
individual failure reasons, and the previously stored active pointer value
is left unchanged. -/
theorem C1_activation_iff_health_gate (db : DbView) (prevName active : Option (List Char))
    (tables : List (List Char)) (newT : List Char)
    (hpat : matchesTablePattern newT = true) :
    ((runHealthChecks db prevName).passed = true ↔
      ((runHealthChecks db prevName).errors = [] ∧ 0 < (runHealthChecks db prevName).rowCount))
    ∧ ((activationStep active tables (runHealthChecks db prevName) newT).wrotePointer = true ↔
        (runHealthChecks db prevName).passed = true)
    ∧ ((runHealthChecks db prevName).passed = true →
        (activationStep active tables (runHealthChecks db prevName) newT).active = some newT
        ∧ (activationStep active tables (runHealthChecks db prevName) newT).raised = none
        ∧ (activationStep active tables (runHealthChecks db prevName) newT).tables = tables)
    ∧ ((runHealthChecks db prevName).passed = false →
        (activationStep active tables (runHealthChecks db prevName) newT).active = active
        ∧ newT ∉ (activationStep active tables (runHealthChecks db prevName) newT).tables
        ∧ (activationStep active tables (runHealthChecks db prevName) newT).raised =
            some ("Ingest health checks failed: ".toList ++
              joinReasons (runHealthChecks db prevName).errors)) := by
  have hps : (runHealthChecks db prevName).passed =
      ((runHealthChecks db prevName).errors.isEmpty &&
        decide (0 < (runHealthChecks db prevName).rowCount)) := rfl
  refine ⟨?_, ?_, ?_, ?_⟩
  · rw [hps]
    simp [List.isEmpty_iff]
  · cases hp : (runHealthChecks db prevName).passed with
    | true => simp [activationStep, hp]
    | false =>
        cases hdt : dropTableCheck newT with
        | ok u => simp [activationStep, hp, hdt]
        | error e => simp [activationStep, hp, hdt]
  · intro hp
    simp [activationStep, hp]
  · intro hp
    have hdt : dropTableCheck newT = .ok () := dropCheck_ok_of_pattern hpat
    simp [activationStep, hp, hdt, List.mem_filter]

/-- Witness for C1 at a gate whose five checks all pass. -/
theorem C1_activation_iff_health_gate_witness :
    ((runHealthChecks ⟨some 5, none, true, some 0, 2⟩ none).passed = true ↔
      ((runHealthChecks ⟨some 5, none, true, some 0, 2⟩ none).errors = [] ∧
        0 < (runHealthChecks ⟨some 5, none, true, some 0, 2⟩ none).rowCount))
    ∧ ((activationStep (some oldTEx) tablesEx
          (runHealthChecks ⟨some 5, none, true, some 0, 2⟩ none) newTEx).wrotePointer = true ↔
        (runHealthChecks ⟨some 5, none, true, some 0, 2⟩ none).passed = true)
    ∧ ((runHealthChecks ⟨some 5, none, true, some 0, 2⟩ none).passed = true →
        (activationStep (some oldTEx) tablesEx
            (runHealthChecks ⟨some 5, none, true, some 0, 2⟩ none) newTEx).active = some newTEx
        ∧ (activationStep (some oldTEx) tablesEx
            (runHealthChecks ⟨some 5, none, true, some 0, 2⟩ none) newTEx).raised = none
        ∧ (activationStep (some oldTEx) tablesEx
            (runHealthChecks ⟨some 5, none, true, some 0, 2⟩ none) newTEx).tables = tablesEx)
    ∧ ((runHealthChecks ⟨some 5, none, true, some 0, 2⟩ none).passed = false →
        (activationStep (some oldTEx) tablesEx
            (runHealthChecks ⟨some 5, none, true, some 0, 2⟩ none) newTEx).active = some oldTEx
        ∧ newTEx ∉ (activationStep (some oldTEx) tablesEx
            (runHealthChecks ⟨some 5, none, true, some 0, 2⟩ none) newTEx).tables
        ∧ (activationStep (some oldTEx) tablesEx
            (runHealthChecks ⟨some 5, none, true, some 0, 2⟩ none) newTEx).raised =
            some ("Ingest health checks failed: ".toList ++
              joinReasons (runHealthChecks ⟨some 5, none, true, some 0, 2⟩ none).errors)) :=
  C1_activation_iff_health_gate ⟨some 5, none, true, some 0, 2⟩ none (some oldTEx)
    tablesEx newTEx (by decide)

/-- C7: every identifier the generator produces from a clock reading matches
`entries_` plus exactly 14 digits, and `createTable`, `createIndexes` and
`dropTable` all validate their identifier against that pattern first,
succeeding on every generated identifier (the invalid-identifier branch is
unreachable for them) and throwing on every non-conforming name. -/
theorem C7_generated_identifier_safe (t : UtcTime) (name : List Char)
    (hy : t.year ≤ 9999) (hmo : t.month ≤ 12) (hd : t.day ≤ 31)
    (hh : t.hour ≤ 23) (hmi : t.minute ≤ 59) (hs : t.second ≤ 59)
    (hn : matchesTablePattern name = false) :
    matchesTablePattern (generateTableName t) = true
    ∧ createTable (generateTableName t) = .ok ()
    ∧ createIndexes (generateTableName t) = .ok true
    ∧ dropTableCheck (generateTableName t) = .ok ()
    ∧ createTable name = .error (invalidNameMsg name)
    ∧ createIndexes name = .error (invalidNameMsg name)
    ∧ dropTableCheck name = .error (invalidNameMsg name) := by
  have hpat : matchesTablePattern (generateTableName t) = true := by
    unfold matchesTablePattern generateTableName
    rw [show (8 : ℕ) = entriesTag.length from rfl]
    rw [List.take_left, List.drop_left]
    simp [pad4, pad2, digitChar_isDigit]
  exact ⟨hpat, by simp [createTable, hpat], by simp [createIndexes, hpat],
    by simp [dropTableCheck, hpat], by simp [createTable, hn],
    by simp [createIndexes, hn], by simp [dropTableCheck, hn]⟩

/-- Witness for C7 at a concrete clock reading and the legacy name. -/
theorem C7_generated_identifier_safe_witness :
    matchesTablePattern (generateTableName ⟨2025, 6, 1, 2, 3, 4⟩) = true
    ∧ createTable (generateTableName ⟨2025, 6, 1, 2, 3, 4⟩) = .ok ()
    ∧ createIndexes (generateTableName ⟨2025, 6, 1, 2, 3, 4⟩) = .ok true
    ∧ dropTableCheck (generateTableName ⟨2025, 6, 1, 2, 3, 4⟩) = .ok ()
    ∧ createTable ("entries".toList) = .error (invalidNameMsg ("entries".toList))
    ∧ createIndexes ("entries".toList) = .error (invalidNameMsg ("entries".toList))
    ∧ dropTableCheck ("entries".toList) = .error (invalidNameMsg ("entries".toList)) :=
  C7_generated_identifier_safe ⟨2025, 6, 1, 2, 3, 4⟩ ("entries".toList)
    (by decide) (by decide) (by decide) (by decide) (by decide) (by decide) (by decide)
